import Mathlib

/-!
# Verification of the mattors sketch-host contract

Shallow embedding of the sketch registry and the p5 host loop of
src/index.tsx (current revision: the selector that reverses the listing),
together with the registered sketch descriptors from src/sketches.

The individual visual algorithms are out of scope (spec section 1): a
sketch's contribution to the host contract is its descriptor fields
(name, width, height, the optional loop flag) and its reset/draw effect
on the surface's transform/style settings, modelled as functions on an
abstract settings type.
-/

namespace Mattors

/-- The p5 looping state: Running means frame ticks invoke the draw
callback, Paused (after noLoop) means they do not. -/
inductive LoopState
  | Running
  | Paused
deriving DecidableEq

/-- Observable actions the host performs on the sketch or the surface:
a call to the sketch's reset, a call to the sketch's draw, or a capture
of the surface to a file (recording the loop state at capture time). -/
inductive Action
  | reset
  | draw
  | save (file : String) (ls : LoopState)
deriving DecidableEq

/-- A registered sketch as the host sees it: the descriptor fields read by
the host plus the sketch's own reset/draw effect on the surface settings.
The loop field is an Option because several sketch classes (e.g. Print10)
declare no loop member at all, so reading it yields undefined. -/
structure SketchDesc (S : Type) where
  name : String
  width : Nat
  height : Nat
  loop : Option Bool
  reset : S → S
  draw : S → S

/-- JavaScript truthiness of the sketch.loop read: undefined and false are
falsy, so only an explicit loop = true makes the host treat the sketch as
looping. -/
def loopFlag {S : Type} (sk : SketchDesc S) : Bool :=
  sk.loop.getD false

/-- The host-visible state: the p5 loop state, the created canvas (if any),
the surface's current transform/style settings, the p5 push/pop settings
stack, and the trace of observable actions performed so far. -/
structure HostState (S : Type) where
  loopState : LoopState
  canvas : Option (Nat × Nat)
  surf : S
  sstack : List S
  trace : List Action
deriving DecidableEq

/-- p.noLoop(): stop scheduling frame ticks. -/
def p5noLoop {S : Type} (st : HostState S) : HostState S :=
  { st with loopState := LoopState.Paused }

/-- p.loop(): resume scheduling frame ticks. -/
def p5loop {S : Type} (st : HostState S) : HostState S :=
  { st with loopState := LoopState.Running }

/-- p.push(): save the current transform/style settings on the stack. -/
def p5push {S : Type} (st : HostState S) : HostState S :=
  { st with sstack := st.surf :: st.sstack }

/-- p.pop(): restore the most recently saved settings; with an empty stack
p5 only warns, changing nothing. -/
def p5pop {S : Type} (st : HostState S) : HostState S :=
  match st.sstack with
  | [] => st
  | s :: rest => { st with surf := s, sstack := rest }

/-- p.createCanvas(w, h). -/
def p5createCanvas {S : Type} (w h : Nat) (st : HostState S) : HostState S :=
  { st with canvas := some (w, h) }

/-- p.save(file): capture the surface to an image artifact. The ok flag
models whether the capture succeeds; on failure the call raises, surfacing
the host state as it is at that moment. -/
def p5save {S : Type} (ok : Bool) (file : String) (st : HostState S) :
    Except (HostState S) (HostState S) :=
  if ok then Except.ok { st with trace := st.trace ++ [Action.save file st.loopState] }
  else Except.error st

/-- sketch.reset(p). -/
def sketchReset {S : Type} (sk : SketchDesc S) (st : HostState S) : HostState S :=
  { st with surf := sk.reset st.surf, trace := st.trace ++ [Action.reset] }

/-- sketch.draw(p). -/
def sketchDraw {S : Type} (sk : SketchDesc S) (st : HostState S) : HostState S :=
  { st with surf := sk.draw st.surf, trace := st.trace ++ [Action.draw] }

/-- The host draw callback (src/index.tsx lines 190-199):
p.push(); sketch.draw(p); if (!sketch.loop) p.noLoop(); p.pop(). -/
def hostDraw {S : Type} (sk : SketchDesc S) (st : HostState S) : HostState S :=
  let st1 := p5push st
  let st2 := sketchDraw sk st1
  let st3 := if loopFlag sk then st2 else p5noLoop st2
  p5pop st3

/-- The p5 mouse buttons the handler distinguishes. -/
inductive MouseButton
  | left
  | right
  | center
deriving DecidableEq

/-- The mouseClicked handler (src/index.tsx lines 201-210): a non-left
button returns immediately; a left click calls sketch.reset then invokes
the draw callback once. -/
def mouseClicked {S : Type} (sk : SketchDesc S) (b : MouseButton)
    (st : HostState S) : HostState S :=
  if b ≠ MouseButton.left then st
  else hostDraw sk (sketchReset sk st)

/-- The keyPressed handler (src/index.tsx lines 212-233). The saveOk flag
feeds the save call for the export key; every other branch cannot fail. -/
def keyPressed {S : Type} (sk : SketchDesc S) (saveOk : Bool) (key : String)
    (st : HostState S) : Except (HostState S) (HostState S) :=
  if key = " " then Except.ok (hostDraw sk (sketchReset sk st))
  else if key = "s" then Except.ok (p5noLoop st)
  else if key = "p" ∧ loopFlag sk = true then Except.ok (p5loop st)
  else if key = "d" then
    let st1 := if loopFlag sk then p5noLoop st else st
    match p5save saveOk (sk.name ++ ".png") st1 with
    | Except.error e => Except.error e
    | Except.ok st2 => Except.ok (if loopFlag sk then p5loop st2 else st2)
  else Except.ok st

/-- The p5 instance state before setup runs: looping by default, no canvas
yet, empty settings stack, empty trace. -/
def initState {S : Type} (s0 : S) : HostState S :=
  { loopState := LoopState.Running, canvas := none, surf := s0,
    sstack := [], trace := [] }

/-- p.setup (src/index.tsx lines 184-188): create the canvas sized per the
descriptor, then call sketch.reset. -/
def p5setup {S : Type} (sk : SketchDesc S) (st : HostState S) : HostState S :=
  sketchReset sk (p5createCanvas sk.width sk.height st)

/-- Mounting a sketch: p5 invokes setup and then the draw callback for the
first frame. -/
def mount {S : Type} (sk : SketchDesc S) (s0 : S) : HostState S :=
  hostDraw sk (p5setup sk (initState s0))

/-- A scheduled frame tick: the p5 scheduler invokes the draw callback only
while looping. -/
def tick {S : Type} (sk : SketchDesc S) (st : HostState S) : HostState S :=
  if st.loopState = LoopState.Running then hostDraw sk st else st

/-- n scheduled frame ticks in sequence. -/
def tickN {S : Type} (sk : SketchDesc S) : Nat → HostState S → HostState S
  | 0, st => st
  | n + 1, st => tickN sk n (tick sk st)

/-- The input events the host reacts to after mounting. -/
inductive Event
  | tick
  | click (b : MouseButton)
  | key (k : String)

/-- One host step on an event. Export captures succeed during normal
operation, so key events use the non-failing save. -/
def step {S : Type} (sk : SketchDesc S) (st : HostState S) : Event → HostState S
  | Event.tick => tick sk st
  | Event.click b => mouseClicked sk b st
  | Event.key k =>
    match keyPressed sk true k st with
    | Except.ok st' => st'
    | Except.error st' => st'

/-- The host states reachable while a sketch is mounted: mount followed by
any sequence of frame ticks and input events. -/
def run {S : Type} (sk : SketchDesc S) (s0 : S) (es : List Event) : HostState S :=
  es.foldl (step sk) (mount sk s0)

/-- A JavaScript Map, keyed by sketch name, as an insertion-ordered
association list. -/
abbrev Registry (S : Type) := List (String × SketchDesc S)

/-- Map.set semantics: an existing key keeps its position and gets the new
value; a new key is appended at the end. -/
def mapSet {S : Type} (m : Registry S) (k : String) (v : SketchDesc S) :
    Registry S :=
  match m with
  | [] => [(k, v)]
  | (k', v') :: rest =>
    if k' = k then (k', v) :: rest else (k', v') :: mapSet rest k v

/-- new Map(SKETCHES.map(s handing in [s.name, s])): insert the pairs in
list order. -/
def mapOfList {S : Type} (l : List (SketchDesc S)) : Registry S :=
  l.foldl (fun m s => mapSet m s.name s) []

/-- Map.get semantics: the value stored at the key, or undefined (none)
when the key is absent; a total function, it never throws. -/
def mapGet {S : Type} (m : Registry S) (k : String) : Option (SketchDesc S) :=
  match m with
  | [] => none
  | (k', v) :: rest => if k' = k then some v else mapGet rest k

/-- Map.keys(): the keys in insertion order. -/
def mapKeys {S : Type} (m : Registry S) : List String :=
  m.map Prod.fst

/-- SketchSelector.render: the listing iterates sketchesMap.keys() and then
reverses, to show from latest to older. -/
def selectorItems {S : Type} (l : List (SketchDesc S)) : List String :=
  (mapKeys (mapOfList l)).reverse

/-- Sketch.runSketch: look the name up in the registry; an unknown name
throws an Error, a known one mounts the sketch. -/
def runSketch {S : Type} (l : List (SketchDesc S)) (s0 : S) (sketchName : String) :
    Except String (HostState S) :=
  match mapGet (mapOfList l) sketchName with
  | none => Except.error ("da fuck bro? " ++ sketchName ++ " is not a valid sketch")
  | some sk => Except.ok (mount sk s0)

/-! ## The registered sketch descriptors

Descriptor fields are taken from each sketch class in src/sketches; the
reset/draw surface effects of the bodies are out of scope (spec section 1)
and abstracted to the identity on the settings type, here Unit. A class
that declares no loop member gets loop := none (reading it yields
undefined). -/

/-- src/sketches/sorting.ts, class Print10: name 10Print, 600 by 600, and
no loop member is declared. -/
def Print10 : SketchDesc Unit :=
  { name := "10Print", width := 600, height := 600, loop := none,
    reset := id, draw := id }

/-- src/sketches/cubic-disarray.ts, class CubicDisarray. -/
def CubicDisarray : SketchDesc Unit :=
  { name := "Cubic disarray", width := 600, height := 720, loop := none,
    reset := id, draw := id }

/-- class BloodySpiderWeb. -/
def BloodySpiderWeb : SketchDesc Unit :=
  { name := "Bloody spider web", width := 1920, height := 1080, loop := none,
    reset := id, draw := id }

/-- class Annulus. -/
def Annulus : SketchDesc Unit :=
  { name := "Annulus", width := 1920, height := 1080, loop := some false,
    reset := id, draw := id }

/-- src/sketches/astroid.ts, class Astroid. -/
def Astroid : SketchDesc Unit :=
  { name := "Astroid", width := 600, height := 600, loop := some false,
    reset := id, draw := id }

/-- src/sketches/neon-lines.ts, class NeonLines. -/
def NeonLines : SketchDesc Unit :=
  { name := "Neon Lines", width := 1920, height := 1080, loop := some true,
    reset := id, draw := id }

/-- class Nucleus: no loop member is declared. -/
def Nucleus : SketchDesc Unit :=
  { name := "Nucleus", width := 600, height := 600, loop := none,
    reset := id, draw := id }

/-- src/sketches/rough-balls.ts, class RoughBalls. -/
def RoughBalls : SketchDesc Unit :=
  { name := "Rough Balls", width := 1300, height := 800, loop := some false,
    reset := id, draw := id }

/-- src/sketches/sorting.ts, class Blankets. -/
def Blankets : SketchDesc Unit :=
  { name := "Blankets", width := 1920, height := 1080, loop := some true,
    reset := id, draw := id }

/-- class ChristmasSpiralTree. -/
def ChristmasSpiralTree : SketchDesc Unit :=
  { name := "Christmas Spiral Tree", width := 600, height := 600, loop := some true,
    reset := id, draw := id }

/-- src/sketches/light-in-a-cave.ts, class LightInACave. -/
def LightInACave : SketchDesc Unit :=
  { name := "Light in a Cave", width := 1920, height := 1080, loop := some true,
    reset := id, draw := id }

/-- class Cuts. -/
def Cuts : SketchDesc Unit :=
  { name := "Cuts and Tears", width := 600, height := 600, loop := some false,
    reset := id, draw := id }

/-- src/sketches/truchet-tiles.ts, class Walls. -/
def Walls : SketchDesc Unit :=
  { name := "Walls", width := 1300, height := 800, loop := some false,
    reset := id, draw := id }

/-- Modelled from the spec: the SuperPermutations class is registered in the
startup list of src/index.tsx but its source file is not under src; per the
data model (spec section 3) only its unique display name matters to the
registry, so a distinct name is used with the same abstracted body. -/
def SuperPermutations : SketchDesc Unit :=
  { name := "Super Permutations", width := 600, height := 600, loop := some false,
    reset := id, draw := id }

/-- src/sketches/space-filling-curves.ts, class SpaceFillingCurves. -/
def SpaceFillingCurves : SketchDesc Unit :=
  { name := "Space Filling Curves", width := 800, height := 800, loop := some false,
    reset := id, draw := id }

/-- class GalaxyMap. -/
def GalaxyMap : SketchDesc Unit :=
  { name := "Galaxy Map", width := 800, height := 800, loop := some false,
    reset := id, draw := id }

/-- class CliffordAttractors. -/
def CliffordAttractors : SketchDesc Unit :=
  { name := "Clifford Attractors", width := 1920, height := 1080, loop := some true,
    reset := id, draw := id }

/-- class Isolines. -/
def Isolines : SketchDesc Unit :=
  { name := "Isolines", width := 1920, height := 1080, loop := some false,
    reset := id, draw := id }

/-- src/sketches/roses.ts, class Roses. -/
def Roses : SketchDesc Unit :=
  { name := "Roses", width := 1920, height := 1080, loop := some true,
    reset := id, draw := id }

/-- class CairoTiling. -/
def CairoTiling : SketchDesc Unit :=
  { name := "Cairo tiling", width := 1920, height := 1080, loop := some true,
    reset := id, draw := id }

/-- class PenroseTiling. -/
def PenroseTiling : SketchDesc Unit :=
  { name := "Penrose Tiling", width := 1920, height := 1080, loop := some true,
    reset := id, draw := id }

/-- src/sketches/truchet-tiles.ts, class TruchetTiles. -/
def TruchetTiles : SketchDesc Unit :=
  { name := "Truchet Tiles", width := 1920, height := 1080, loop := some false,
    reset := id, draw := id }

/-- class TriangularMaze. -/
def TriangularMaze : SketchDesc Unit :=
  { name := "Triangular Maze (kind of)", width := 1920, height := 1080, loop := some true,
    reset := id, draw := id }

/-- src/sketches/circular-maze.ts, class CircularMaze. -/
def CircularMaze : SketchDesc Unit :=
  { name := "Circular Maze (kind of)", width := 1920, height := 1080, loop := some false,
    reset := id, draw := id }

/-- src/sketches/dla.ts, class Dla. -/
def Dla : SketchDesc Unit :=
  { name := "Diffusion limited aggregation", width := 1920, height := 1080,
    loop := some true, reset := id, draw := id }

/-- src/sketches/parallel-bands.ts, class ParallelBands. -/
def ParallelBands : SketchDesc Unit :=
  { name := "Parallel Bands", width := 1920, height := 1080, loop := some false,
    reset := id, draw := id }

/-- class GooglyEyes. -/
def GooglyEyes : SketchDesc Unit :=
  { name := "Googly Eyes", width := 800, height := 800, loop := some true,
    reset := id, draw := id }

/-- The SKETCHES startup list of src/index.tsx, from older to most recent. -/
def SKETCHES : List (SketchDesc Unit) :=
  [Print10, CubicDisarray, BloodySpiderWeb, Annulus, Astroid, NeonLines,
   Nucleus, RoughBalls, Blankets, ChristmasSpiralTree, LightInACave, Cuts,
   Walls, SuperPermutations, SpaceFillingCurves, GalaxyMap, CliffordAttractors,
   Isolines, Roses, CairoTiling, PenroseTiling, TruchetTiles, TriangularMaze,
   CircularMaze, Dla, ParallelBands, GooglyEyes]

/-- The sketchesMap registry built once at startup. -/
def sketchesMap : Registry Unit :=
  mapOfList SKETCHES

/-! ## Helper lemmas -/

/-- The draw callback performs exactly one sketch draw. -/
theorem hostDraw_trace {S : Type} (sk : SketchDesc S) (st : HostState S) :
    (hostDraw sk st).trace = st.trace ++ [Action.draw] := by
  cases hf : loopFlag sk <;>
    simp [hostDraw, hf, p5push, sketchDraw, p5noLoop, p5pop]

/-- The draw callback keeps the canvas. -/
theorem hostDraw_canvas {S : Type} (sk : SketchDesc S) (st : HostState S) :
    (hostDraw sk st).canvas = st.canvas := by
  cases hf : loopFlag sk <;>
    simp [hostDraw, hf, p5push, sketchDraw, p5noLoop, p5pop]

/-- For a non-looping sketch the draw callback always ends Paused. -/
theorem hostDraw_loopState_false {S : Type} (sk : SketchDesc S) (st : HostState S)
    (hf : loopFlag sk = false) : (hostDraw sk st).loopState = LoopState.Paused := by
  simp [hostDraw, hf, p5push, sketchDraw, p5noLoop, p5pop]

/-- For a looping sketch the draw callback keeps the loop state. -/
theorem hostDraw_loopState_true {S : Type} (sk : SketchDesc S) (st : HostState S)
    (hf : loopFlag sk = true) : (hostDraw sk st).loopState = st.loopState := by
  simp [hostDraw, hf, p5push, sketchDraw, p5pop]

/-- For a non-looping sketch every host step preserves Paused. -/
theorem step_paused {S : Type} (sk : SketchDesc S) (st : HostState S) (e : Event)
    (hf : loopFlag sk = false) (hp : st.loopState = LoopState.Paused) :
    (step sk st e).loopState = LoopState.Paused := by
  cases e with
  | tick => simp [step, tick, hp]
  | click b =>
    by_cases hb : b = MouseButton.left
    · simp [step, mouseClicked, hb, hostDraw_loopState_false _ _ hf]
    · simp [step, mouseClicked, hb, hp]
  | key k =>
    by_cases h1 : k = " "
    · simp [step, keyPressed, h1, hostDraw_loopState_false _ _ hf]
    · by_cases h2 : k = "s"
      · simp [step, keyPressed, h1, h2, p5noLoop]
      · by_cases h4 : k = "d"
        · simp [step, keyPressed, h1, h2, h4, hf, p5save, hp]
        · simp [step, keyPressed, h1, h2, h4, hf, hp]

/-- For a non-looping sketch Paused is invariant under any event sequence. -/
theorem foldl_paused {S : Type} (sk : SketchDesc S) (hf : loopFlag sk = false) :
    ∀ (es : List Event) (st : HostState S), st.loopState = LoopState.Paused →
      (es.foldl (step sk) st).loopState = LoopState.Paused := by
  intro es
  induction es with
  | nil => intro st hp; simpa using hp
  | cons e rest ih =>
    intro st hp
    simp only [List.foldl_cons]
    exact ih _ (step_paused sk st e hf hp)

/-- A mounted non-looping sketch is Paused in every reachable state. -/
theorem run_paused {S : Type} (sk : SketchDesc S) (s0 : S) (es : List Event)
    (hf : loopFlag sk = false) : (run sk s0 es).loopState = LoopState.Paused := by
  exact foldl_paused sk hf es (mount sk s0) (hostDraw_loopState_false _ _ hf)

/-- In a reachable Running state the descriptor's loop flag is true. -/
theorem run_running_loopFlag {S : Type} (sk : SketchDesc S) (s0 : S) (es : List Event)
    (hR : (run sk s0 es).loopState = LoopState.Running) : loopFlag sk = true := by
  cases hf : loopFlag sk
  · rw [run_paused sk s0 es hf] at hR
    cases hR
  · rfl

/-- Ticks do nothing to a Paused state. -/
theorem tickN_paused {S : Type} (sk : SketchDesc S) (st : HostState S)
    (hp : st.loopState = LoopState.Paused) : ∀ n, tickN sk n st = st := by
  intro n
  induction n with
  | zero => rfl
  | succ n ih =>
    have ht : tick sk st = st := by simp [tick, hp]
    calc tickN sk (n + 1) st = tickN sk n (tick sk st) := rfl
      _ = tickN sk n st := by rw [ht]
      _ = st := ih

/-- Setting a fresh key appends it to the key list. -/
theorem mapKeys_mapSet_new {S : Type} (m : Registry S) (k : String) (v : SketchDesc S)
    (h : k ∉ mapKeys m) : mapKeys (mapSet m k v) = mapKeys m ++ [k] := by
  induction m with
  | nil => rfl
  | cons p rest ih =>
    obtain ⟨k', v'⟩ := p
    have h' : ¬ (k = k') ∧ k ∉ mapKeys rest := by
      simpa [mapKeys, not_or] using h
    have hne : ¬ (k' = k) := fun hq => h'.1 hq.symm
    show mapKeys (if k' = k then (k', v) :: rest else (k', v') :: mapSet rest k v) =
      mapKeys ((k', v') :: rest) ++ [k]
    rw [if_neg hne]
    show k' :: mapKeys (mapSet rest k v) = (k' :: mapKeys rest) ++ [k]
    rw [ih h'.2]
    rfl

/-- Building a Map from sketches with fresh, pairwise distinct names appends
the names in registration order. -/
theorem mapKeys_foldl {S : Type} :
    ∀ (l : List (SketchDesc S)) (m : Registry S),
      (∀ s ∈ l, s.name ∉ mapKeys m) → (l.map SketchDesc.name).Nodup →
      mapKeys (l.foldl (fun m s => mapSet m s.name s) m) =
        mapKeys m ++ l.map SketchDesc.name := by
  intro l
  induction l with
  | nil => intro m _ _; simp
  | cons s rest ih =>
    intro m hfresh hnd
    simp only [List.map_cons, List.nodup_cons, List.mem_map] at hnd
    have hsm : s.name ∉ mapKeys m := hfresh s (by simp)
    have hkeys : mapKeys (mapSet m s.name s) = mapKeys m ++ [s.name] :=
      mapKeys_mapSet_new m s.name s hsm
    simp only [List.foldl_cons]
    rw [ih (mapSet m s.name s)
        (by
          intro t ht
          rw [hkeys]
          simp only [List.mem_append, List.mem_singleton]
          rintro (hin | heq)
          · exact hfresh t (by simp [ht]) hin
          · exact hnd.1 ⟨t, ht, heq ▸ rfl⟩)
        hnd.2]
    rw [hkeys]
    simp

/-! ## The claims -/

/-- C1: in every state reachable while a sketch is mounted, an explicit
reset trigger (a primary-pointer click, or the space key which behaves
identically) performs exactly one sketch reset followed synchronously by
exactly one sketch draw, and leaves the Running/Paused loop state
unchanged. -/
theorem claim1_explicit_reset_pair {S : Type} (sk : SketchDesc S) (s0 : S)
    (es : List Event) :
    keyPressed sk true " " (run sk s0 es) =
      Except.ok (mouseClicked sk MouseButton.left (run sk s0 es)) ∧
    (mouseClicked sk MouseButton.left (run sk s0 es)).trace =
      (run sk s0 es).trace ++ [Action.reset, Action.draw] ∧
    (mouseClicked sk MouseButton.left (run sk s0 es)).loopState =
      (run sk s0 es).loopState := by
  refine ⟨?_, ?_, ?_⟩
  · simp [keyPressed, mouseClicked]
  · simp [mouseClicked, hostDraw_trace, sketchReset]
  · cases hf : loopFlag sk
    · have hm : mouseClicked sk MouseButton.left (run sk s0 es) =
          hostDraw sk (sketchReset sk (run sk s0 es)) := by
        simp [mouseClicked]
      rw [hm, hostDraw_loopState_false _ _ hf, run_paused sk s0 es hf]
    · simp [mouseClicked, hostDraw_loopState_true _ _ hf, sketchReset]

/-- C2: mounting creates a canvas sized per the descriptor, performs exactly
one reset followed by one draw, ends Running exactly when the descriptor's
loop flag is true, and a non-looping mount is a fixed point of frame ticks
(no further tick invokes draw). -/
theorem claim2_mount_behavior {S : Type} (sk : SketchDesc S) (s0 : S) :
    (mount sk s0).canvas = some (sk.width, sk.height) ∧
    (mount sk s0).trace = [Action.reset, Action.draw] ∧
    (mount sk s0).loopState =
      (if loopFlag sk then LoopState.Running else LoopState.Paused) ∧
    (loopFlag sk = false → ∀ n, tickN sk n (mount sk s0) = mount sk s0) := by
  refine ⟨?_, ?_, ?_, ?_⟩
  · rw [mount, hostDraw_canvas]
    simp [p5setup, sketchReset, p5createCanvas, initState]
  · rw [mount, hostDraw_trace]
    simp [p5setup, sketchReset, p5createCanvas, initState]
  · cases hf : loopFlag sk
    · simp [hf, mount, hostDraw_loopState_false _ _ hf]
    · simp [hf, mount, hostDraw_loopState_true _ _ hf, p5setup, sketchReset,
        p5createCanvas, initState]
  · intro hf n
    exact tickN_paused sk _ (hostDraw_loopState_false _ _ hf) n

/-- Witness for C2: at the non-looping Print10 mount, frame ticks change
nothing. -/
theorem claim2_mount_behavior_witness :
    tickN Print10 3 (mount Print10 ()) = mount Print10 () :=
  (claim2_mount_behavior Print10 ()).2.2.2 rfl 3

/-- C3: on the export key in a reachable state, a Running host captures the
surface to an image named after the sketch while Paused and ends Running
again; for a non-looping sketch the capture happens directly, changing
nothing but the recorded artifact. -/
theorem claim3_export_key {S : Type} (sk : SketchDesc S) (s0 : S) (es : List Event)
    (st : HostState S) (hst : st = run sk s0 es) :
    (st.loopState = LoopState.Running →
      keyPressed sk true "d" st =
        Except.ok { st with
          loopState := LoopState.Running
          trace := st.trace ++
            [Action.save (sk.name ++ ".png") LoopState.Paused] }) ∧
    (loopFlag sk = false →
      keyPressed sk true "d" st =
        Except.ok { st with
          trace := st.trace ++
            [Action.save (sk.name ++ ".png") st.loopState] }) := by
  constructor
  · intro hR
    have hf : loopFlag sk = true := run_running_loopFlag sk s0 es (hst ▸ hR)
    obtain ⟨ls, cv, sf, ss, tr⟩ := st
    simp [keyPressed, hf, p5save, p5noLoop, p5loop]
  · intro hf
    obtain ⟨ls, cv, sf, ss, tr⟩ := st
    simp [keyPressed, hf, p5save]

/-- Witness for C3: exporting from the freshly mounted looping NeonLines
sketch captures while Paused and ends Running; exporting from the
non-looping Print10 mount captures with no state change. -/
theorem claim3_export_key_witness :
    keyPressed NeonLines true "d" (run NeonLines () []) =
      Except.ok { (run NeonLines () []) with
        loopState := LoopState.Running
        trace := (run NeonLines () []).trace ++
          [Action.save (NeonLines.name ++ ".png") LoopState.Paused] } ∧
    keyPressed Print10 true "d" (run Print10 () []) =
      Except.ok { (run Print10 () []) with
        trace := (run Print10 () []).trace ++
          [Action.save (Print10.name ++ ".png") (run Print10 () []).loopState] } :=
  ⟨(claim3_export_key NeonLines () [] (run NeonLines () []) rfl).1 rfl,
   (claim3_export_key Print10 () [] (run Print10 () []) rfl).2 rfl⟩

/-- C4 counterexample: with the looping NeonLines sketch freshly mounted and
Running, a failing capture surfaces the failure with the host left Paused,
so the prior Running state is not restored before the failure escapes. -/
theorem claim4_export_failure_cex :
    (mount NeonLines ()).loopState = LoopState.Running ∧
    keyPressed NeonLines false "d" (mount NeonLines ()) =
      Except.error (p5noLoop (mount NeonLines ())) ∧
    (p5noLoop (mount NeonLines ())).loopState ≠ (mount NeonLines ()).loopState := by
  refine ⟨rfl, rfl, ?_⟩
  decide

/-- C4 amended: when the capture-to-image step of the export key fails, the
failure propagates with the pre-capture pause still in effect: a looping
sketch surfaces the failure Paused (a prior Running state is not restored);
only for a non-looping sketch is the state unchanged. -/
theorem claim4_export_failure_amended {S : Type} (sk : SketchDesc S) (s0 : S)
    (es : List Event) :
    (loopFlag sk = true →
      keyPressed sk false "d" (run sk s0 es) =
        Except.error (p5noLoop (run sk s0 es))) ∧
    (loopFlag sk = false →
      keyPressed sk false "d" (run sk s0 es) = Except.error (run sk s0 es)) := by
  constructor
  · intro hf
    simp [keyPressed, hf, p5save]
  · intro hf
    simp [keyPressed, hf, p5save]

/-- Witness for the amended C4 at the looping NeonLines mount and the
non-looping Print10 mount. -/
theorem claim4_export_failure_amended_witness :
    keyPressed NeonLines false "d" (run NeonLines () []) =
      Except.error (p5noLoop (run NeonLines () [])) ∧
    keyPressed Print10 false "d" (run Print10 () []) =
      Except.error (run Print10 () []) :=
  ⟨(claim4_export_failure_amended NeonLines () []).1 rfl,
   (claim4_export_failure_amended Print10 () []).2 rfl⟩

/-- C5 counterexample: the Print10 sketch registers itself under the name
10Print, so looking up Print10 yields the not-found signal, not the
registered Print10 instance. -/
theorem claim5_lookup_cex :
    mapGet sketchesMap "Print10" = none ∧
    mapGet sketchesMap "Print10" ≠ some Print10 := by
  refine ⟨rfl, ?_⟩
  intro h
  rw [show mapGet sketchesMap "Print10" = none from rfl] at h
  exact Option.noConfusion h

/-- C5 amended: the registry is keyed by each sketch's own name field, so
the Print10 instance is found under 10Print, while Print10 and
does-not-exist are absent and yield the undefined not-found signal; lookup
is a total function and never throws. -/
theorem claim5_lookup_amended :
    mapGet sketchesMap "10Print" = some Print10 ∧
    mapGet sketchesMap "Print10" = none ∧
    mapGet sketchesMap "does-not-exist" = none :=
  ⟨rfl, rfl, rfl⟩

/-- C6 counterexample: navigating to the name does-not-exist makes
runSketch throw an Error, so an exception does escape the navigation
path instead of being handled into a crash-free error display. -/
theorem claim6_unknown_navigation_cex :
    runSketch SKETCHES () "does-not-exist" =
      Except.error "da fuck bro? does-not-exist is not a valid sketch" :=
  rfl

/-- C6 amended: navigating to a name absent from the registry throws an
Error whose message names the invalid sketch; no sketch is mounted, so
neither reset nor draw is called. Whether the selector survives the escaped
exception is decided by the React runtime, not by this code. -/
theorem claim6_unknown_navigation_amended {S : Type} (l : List (SketchDesc S))
    (s0 : S) (nm : String) (h : mapGet (mapOfList l) nm = none) :
    runSketch l s0 nm =
      Except.error ("da fuck bro? " ++ nm ++ " is not a valid sketch") := by
  simp [runSketch, h]

/-- Witness for the amended C6 at the concrete registry and an absent
name. -/
theorem claim6_unknown_navigation_amended_witness :
    runSketch SKETCHES () "does-not-exist" =
      Except.error ("da fuck bro? " ++ "does-not-exist" ++ " is not a valid sketch") :=
  claim6_unknown_navigation_amended SKETCHES () "does-not-exist" rfl

/-- C7: the selector listing shows the registered sketches most recent
first: for every registration list with pairwise distinct names, the listed
items are the names in reverse insertion order. -/
theorem claim7_selector_order {S : Type} (l : List (SketchDesc S))
    (h : (l.map SketchDesc.name).Nodup) :
    selectorItems l = (l.map SketchDesc.name).reverse := by
  unfold selectorItems mapOfList
  rw [mapKeys_foldl l [] (by intro s _; simp [mapKeys]) h]
  simp [mapKeys]

/-- Witness for C7 at the actual startup registration list. -/
theorem claim7_selector_order_witness :
    selectorItems SKETCHES = (SKETCHES.map SketchDesc.name).reverse :=
  claim7_selector_order SKETCHES (by decide)

/-- Print10 with the loop field declared as an explicit false instead of
being absent. -/
def Print10ExplicitFalse : SketchDesc Unit :=
  { Print10 with loop := some false }

/-- C8: a sketch class declaring no loop field at all, such as Print10, is
treated exactly as one with loop explicitly false: every event sequence
produces the same host state for both, the mount ends Paused, and no later
frame tick invokes draw. -/
theorem claim8_missing_loop_field :
    (∀ es : List Event, run Print10 () es = run Print10ExplicitFalse () es) ∧
    (mount Print10 ()).loopState = LoopState.Paused ∧
    (∀ n, tickN Print10 n (mount Print10 ()) = mount Print10 ()) := by
  refine ⟨?_, rfl, ?_⟩
  · have hstep : ∀ (st : HostState Unit) (e : Event),
        step Print10 st e = step Print10ExplicitFalse st e := by
      intro st e
      cases e <;> rfl
    have hfold : ∀ (es : List Event) (st : HostState Unit),
        es.foldl (step Print10) st = es.foldl (step Print10ExplicitFalse) st := by
      intro es
      induction es with
      | nil => intro st; rfl
      | cons e rest ih =>
        intro st
        simp only [List.foldl_cons, hstep, ih]
    intro es
    show es.foldl (step Print10) (mount Print10 ()) = _
    rw [hfold]
    rfl
  · intro n
    exact tickN_paused Print10 _ rfl n

/-- C9: every invocation of the sketch's draw runs inside the host draw
callback, whose push before and pop after restore the surface's
transform/style settings and the settings stack, whatever the sketch's
draw did to them: no transform change carries over to the next frame. -/
theorem claim9_push_pop_isolation {S : Type} (sk : SketchDesc S) (st : HostState S) :
    (hostDraw sk st).surf = st.surf ∧ (hostDraw sk st).sstack = st.sstack := by
  cases hf : loopFlag sk <;>
    simp [hostDraw, hf, p5push, sketchDraw, p5noLoop, p5pop]

/-- C10: a click with any non-primary button, and a key press other than
the space, stop, resume and export keys, leave the host state entirely
unchanged: no reset, no draw, and the same Running/Paused state. -/
theorem claim10_ignored_inputs {S : Type} (sk : SketchDesc S) (st : HostState S) :
    (∀ b : MouseButton, b ≠ MouseButton.left → mouseClicked sk b st = st) ∧
    (∀ k : String, k ≠ " " → k ≠ "s" → k ≠ "p" → k ≠ "d" →
      keyPressed sk true k st = Except.ok st) := by
  constructor
  · intro b hb
    simp [mouseClicked, hb]
  · intro k h1 h2 h3 h4
    simp [keyPressed, h1, h2, h3, h4]

/-- Witness for C10: a right click and the key x on the Print10 mount
change nothing. -/
theorem claim10_ignored_inputs_witness :
    mouseClicked Print10 MouseButton.right (mount Print10 ()) = mount Print10 () ∧
    keyPressed Print10 true "x" (mount Print10 ()) = Except.ok (mount Print10 ()) :=
  ⟨(claim10_ignored_inputs Print10 (mount Print10 ())).1 MouseButton.right (by decide),
   (claim10_ignored_inputs Print10 (mount Print10 ())).2 "x"
     (by decide) (by decide) (by decide) (by decide)⟩

end Mattors
